import Mathlib

/-
Verification of the core client logic of `langchain_wenxin/llms.py`:
credential caching (`WenxinClient.grant_token` / `async_grant_token`),
request dispatch (`completion`, `completion_stream`, `acompletion_stream`),
event-stream decoding (the `read` loop in `acompletion_stream`), and the
conversation encoder (`ChatWenxin._convert_messages_to_prompt`).

Strings and byte buffers are modelled as `List Char` (all inputs of
interest are ASCII, and `bytes.decode("utf-8")` is the identity there).
Network I/O is modelled by passing the outcome of each HTTP exchange as an
explicit oracle argument; mutation of the client object is modelled by
explicit state passing; raised Python exceptions are modelled by `Except`
(or by an explicit error component where the exception can leave mutated
state behind).
-/

namespace Wenxin

/-- Models Python `str.isspace` characters that `str.strip()` removes
(space, tab, newline, carriage return, vertical tab, form feed). -/
def isPySpace : Char → Bool
  | ' ' | '\t' | '\n' | '\r' | '\x0b' | '\x0c' => true
  | _ => false

/-- Models Python `str.strip()` on a character list. -/
def pyStrip (s : List Char) : List Char :=
  ((s.dropWhile isPySpace).reverse.dropWhile isPySpace).reverse

/-- Models Python `str.startswith(p)` / `bytes.startswith(p)`. -/
def pyStartsWith (s p : List Char) : Bool :=
  p.isPrefixOf s

/-- Models Python `bytes.endswith(p)` for a single pattern. -/
def pyEndsWith (s p : List Char) : Bool :=
  p.isSuffixOf s

/-- JSON values, as produced by Python `json.loads` on the payloads this
client exchanges (objects, arrays, strings, integers, booleans, null;
floating-point literals do not occur in the modelled payloads). -/
inductive Json where
  | null
  | bool (b : Bool)
  | num (n : Int)
  | str (s : String)
  | arr (elems : List Json)
  | obj (fields : List (String × Json))

/-- Whitespace skipped by the JSON grammar. -/
def isJsonSpace : Char → Bool
  | ' ' | '\t' | '\n' | '\r' => true
  | _ => false

/-- Skip JSON whitespace. -/
def skipJsonSpace (s : List Char) : List Char :=
  s.dropWhile isJsonSpace

/-- The JSON string-literal escape pairs (escape letter, denoted character). -/
def jsonEscapeTable : List (Char × Char) :=
  [('"', '"'), ('\\', '\\'), ('/', '/'), ('n', '\n'),
   ('t', '\t'), ('r', '\r'), ('b', '\x08'), ('f', '\x0c')]

/-- Decode one JSON string-literal escape character via the table. -/
def jsonEscape (c : Char) : Option Char :=
  (jsonEscapeTable.find? (fun p => p.1 == c)).map (fun p => p.2)

/-- Parse the body of a JSON string literal (the opening quote already
consumed); returns the decoded characters and the rest of the input. -/
def parseStrBody : List Char → Option (List Char × List Char)
  | [] => none
  | '\\' :: [] => none
  | '\\' :: e :: rest =>
    match jsonEscape e with
    | none => none
    | some c => (parseStrBody rest).map (fun p => (c :: p.1, p.2))
  | c :: rest =>
    if c == '"' then some ([], rest)
    else (parseStrBody rest).map (fun p => (c :: p.1, p.2))

/-- Numeric value of a list of decimal digits. -/
def digitsToNat (ds : List Char) : Nat :=
  ds.foldl (fun a c => a * 10 + (c.toNat - 48)) 0

/-- Parse a JSON integer literal (optional minus sign, then digits). -/
def parseIntLit (s : List Char) : Option (Int × List Char) :=
  match s with
  | '-' :: rest =>
    let ds := rest.takeWhile Char.isDigit
    if ds.isEmpty then none
    else some (-(digitsToNat ds : Int), rest.dropWhile Char.isDigit)
  | _ =>
    let ds := s.takeWhile Char.isDigit
    if ds.isEmpty then none
    else some ((digitsToNat ds : Int), s.dropWhile Char.isDigit)

/-- Parse the members of a JSON object, positioned at a key's opening
quote; `pv` parses one value. Accumulates the key/value pairs in order. -/
def parseMembersWith (pv : List Char → Option (Json × List Char)) :
    Nat → List Char → List (String × Json) →
    Option (List (String × Json) × List Char)
  | 0, _, _ => none
  | fuel + 1, s, acc =>
    match s with
    | '"' :: rest =>
      match parseStrBody rest with
      | none => none
      | some (key, r1) =>
        match skipJsonSpace r1 with
        | ':' :: r2 =>
          match pv (skipJsonSpace r2) with
          | none => none
          | some (v, r3) =>
            let acc1 := acc ++ [(⟨key⟩, v)]
            match skipJsonSpace r3 with
            | ',' :: r4 => parseMembersWith pv fuel (skipJsonSpace r4) acc1
            | '\x7d' :: r4 => some (acc1, r4)
            | _ => none
        | _ => none
    | _ => none

/-- Parse the elements of a JSON array, positioned at the first element;
`pv` parses one value. -/
def parseElemsWith (pv : List Char → Option (Json × List Char)) :
    Nat → List Char → List Json → Option (List Json × List Char)
  | 0, _, _ => none
  | fuel + 1, s, acc =>
    match pv s with
    | none => none
    | some (v, r1) =>
      let acc1 := acc ++ [v]
      match skipJsonSpace r1 with
      | ',' :: r2 => parseElemsWith pv fuel (skipJsonSpace r2) acc1
      | ']' :: r2 => some (acc1, r2)
      | _ => none

/-- Parse one JSON value, fuel-bounded. -/
def parseVal : Nat → List Char → Option (Json × List Char)
  | 0, _ => none
  | fuel + 1, s =>
    match skipJsonSpace s with
    | [] => none
    | '"' :: rest => (parseStrBody rest).map (fun p => (Json.str ⟨p.1⟩, p.2))
    | '\x7b' :: rest =>
      match skipJsonSpace rest with
      | '\x7d' :: r1 => some (Json.obj [], r1)
      | s1 => (parseMembersWith (parseVal fuel) fuel s1 []).map
          (fun p => (Json.obj p.1, p.2))
    | '[' :: rest =>
      match skipJsonSpace rest with
      | ']' :: r1 => some (Json.arr [], r1)
      | s1 => (parseElemsWith (parseVal fuel) fuel s1 []).map
          (fun p => (Json.arr p.1, p.2))
    | 't' :: 'r' :: 'u' :: 'e' :: rest => some (Json.bool true, rest)
    | 'f' :: 'a' :: 'l' :: 's' :: 'e' :: rest => some (Json.bool false, rest)
    | 'n' :: 'u' :: 'l' :: 'l' :: rest => some (Json.null, rest)
    | s1 => (parseIntLit s1).map (fun p => (Json.num p.1, p.2))

/-- Models Python `json.loads` on the payload subset above: parses exactly
one JSON document, allowing surrounding whitespace only; any trailing
non-whitespace input is a parse failure (as `json.loads` raises
`JSONDecodeError` on extra data). `none` models a raised
`JSONDecodeError`. -/
def json_loads (s : List Char) : Option Json :=
  match parseVal (2 * s.length + 2) s with
  | none => none
  | some (j, rest) => if (skipJsonSpace rest).isEmpty then some j else none

/-- Models Python `dict.get(key)` on a parsed JSON object (`none` when the
key is absent or the value is not an object; on duplicate keys
`json.loads` keeps the last occurrence, hence the reverse search). -/
def jget (j : Json) (key : String) : Option Json :=
  match j with
  | Json.obj fields => (fields.reverse.find? (fun p => p.1 == key)).map (fun p => p.2)
  | _ => none

/-- Models the Python comparison `x == 0` on a JSON-decoded value (Python
treats `False == 0` as true; any non-numeric, non-boolean value compares
unequal). -/
def pyEqZero : Json → Bool
  | Json.num n => n == 0
  | Json.bool b => !b
  | _ => false

/-- The mutable credential fields of a `WenxinClient` instance:
`self.access_token` (initially `""`) and `self.access_token_expires`
(initially `0`). -/
structure ClientState where
  access_token : String
  access_token_expires : Int
deriving DecidableEq

/-- The two fields of the token-grant JSON response body that
`grant_token` reads; `none` models an absent key, whose subscript access
`response[...]` raises `KeyError`. -/
structure GrantBody where
  access_token : Option String
  expires_in : Option Int
deriving DecidableEq

/-- Outcome of the HTTP GET against the token-grant endpoint:
`unreachable` models a raised transport exception from
`requests.get` / `session.get`; otherwise the HTTP status and the JSON
body (`none` models a body `r.json()` fails to parse). -/
inductive GrantOutcome where
  | unreachable
  | response (status : Nat) (body : Option GrantBody)
deriving DecidableEq

/-- Python exceptions raised by the client paths modelled here. -/
inductive PyError where
  | transportError
  | httpStatusError
  | jsonDecodeError
  | keyError
  | apiError (code : Json) (msg : Json)

/-- `WenxinClient.grant_token`. Returns the result (the token, or the
raised exception), the state of the client after the call (the call can
mutate `access_token` and `access_token_expires`, and an exception can
leave a partial mutation behind), and the number of network calls
performed. `now` is `int(time.time())`; `net` is the network oracle. -/
def grant_token (st : ClientState) (now : Int) (net : GrantOutcome) :
    Except PyError String × ClientState × Nat :=
  if st.access_token ≠ "" ∧ now < st.access_token_expires then
    (Except.ok st.access_token, st, 0)
  else
    match net with
    | GrantOutcome.unreachable => (Except.error PyError.transportError, st, 1)
    | GrantOutcome.response status body =>
      if 400 ≤ status then (Except.error PyError.httpStatusError, st, 1)
      else
        match body with
        | none => (Except.error PyError.jsonDecodeError, st, 1)
        | some b =>
          match b.access_token with
          | none => (Except.error PyError.keyError, st, 1)
          | some tok =>
            let st1 := { st with access_token := tok }
            match b.expires_in with
            | none => (Except.error PyError.keyError, st1, 1)
            | some exp =>
              (Except.ok tok, { st1 with access_token_expires := now + exp }, 1)

/-- `WenxinClient.async_grant_token`: same cache check, grant call, and
field updates as `grant_token` (the source duplicates the logic with
`aiohttp` in place of `requests`). -/
def async_grant_token (st : ClientState) (now : Int) (net : GrantOutcome) :
    Except PyError String × ClientState × Nat :=
  if st.access_token ≠ "" ∧ now < st.access_token_expires then
    (Except.ok st.access_token, st, 0)
  else
    match net with
    | GrantOutcome.unreachable => (Except.error PyError.transportError, st, 1)
    | GrantOutcome.response status body =>
      if 400 ≤ status then (Except.error PyError.httpStatusError, st, 1)
      else
        match body with
        | none => (Except.error PyError.jsonDecodeError, st, 1)
        | some b =>
          match b.access_token with
          | none => (Except.error PyError.keyError, st, 1)
          | some tok =>
            let st1 := { st with access_token := tok }
            match b.expires_in with
            | none => (Except.error PyError.keyError, st1, 1)
            | some exp =>
              (Except.ok tok, { st1 with access_token_expires := now + exp }, 1)

/-- One entry of the `messages` JSON array. -/
structure RoleContent where
  role : String
  content : String
deriving DecidableEq

/-- `WenxinClient.construct_message`: history pairs become alternating
user/assistant entries, followed by the prompt as a final user entry. -/
def construct_message (prompt : String) (history : List (String × String)) :
    List RoleContent :=
  (history.flatMap (fun p => [⟨"user", p.1⟩, ⟨"assistant", p.2⟩])) ++ [⟨"user", prompt⟩]

/-- `WenxinClient.completions_url`: the endpoint slug is `eb-instant` for
the two turbo-class model names, else `completions`, substituted into
`WENXIN_CHAT_URL`. -/
def completions_url (model : String) : String :=
  let endpoint := if model == "eb-instant" || model == "ernie-bot-turbo"
    then "eb-instant" else "completions"
  "https://aip.baidubce.com/rpc/2.0/ai_custom/v1/wenxinworkshop/chat/" ++ endpoint

/-- The outgoing chat POST request, as assembled by the completion
methods: target URL, `access_token` query parameter, `messages` body
field, and `stream` body flag. -/
structure ChatRequest where
  url : String
  access_token : String
  messages : List RoleContent
  stream : Bool

/-- Assemble the chat request the way `completion`,
`completion_stream` and `acompletion_stream` all do. -/
def completion_request (tok model prompt : String)
    (history : List (String × String)) (stream : Bool) : ChatRequest :=
  { url := completions_url model
    access_token := tok
    messages := construct_message prompt history
    stream := stream }

/-- Outcome of the chat-endpoint HTTP POST. `unreachable` models a raised
transport exception. `response` carries the HTTP status, the
`Content-Type` header, and three views of the body as consumed by the
respective readers: `jsonBody` is what `r.json()` parses (`none` models a
`JSONDecodeError`), `chunks` is the sequence of network reads that
iterating `r.content` yields, and `events` is the sequence of `event.data`
strings that `sseclient.SSEClient(r).events()` produces from the body. -/
inductive HttpResponse where
  | unreachable
  | response (status : Nat) (contentType : String) (jsonBody : Option Json)
      (chunks : List (List Char)) (events : List (List Char))

/-- `WenxinClient.completion` (the blocking, non-streaming call): builds
the request, grants the token (propagating its mutation of the client
state), raises on transport failure or non-2xx status, parses the body,
raises an API error when `error_code != 0`, and otherwise returns the
parsed payload unchanged. -/
def completion (st : ClientState) (now : Int) (grantNet : GrantOutcome)
    (chatNet : ChatRequest → HttpResponse) (model prompt : String)
    (history : List (String × String)) : Except PyError Json × ClientState :=
  match grant_token st now grantNet with
  | (Except.error e, st1, _) => (Except.error e, st1)
  | (Except.ok tok, st1, _) =>
    match chatNet (completion_request tok model prompt history false) with
    | HttpResponse.unreachable => (Except.error PyError.transportError, st1)
    | HttpResponse.response status _ jsonBody _ _ =>
      if 400 ≤ status then (Except.error PyError.httpStatusError, st1)
      else
        match jsonBody with
        | none => (Except.error PyError.jsonDecodeError, st1)
        | some response =>
          let error_code := (jget response "error_code").getD (Json.num 0)
          if pyEqZero error_code = false then
            (Except.error (PyError.apiError error_code
              ((jget response "error_msg").getD (Json.str "Unknown error"))), st1)
          else
            (Except.ok response, st1)

/-- Observable behaviour of one run of a Python (sync) generator:
the values yielded to an iterating caller, the exception terminating the
iteration (if any), and the `StopIteration.value` produced by a `return`
statement inside the generator body (invisible to a `for` loop). -/
structure GenOutcome where
  yielded : List Json
  raised : Option PyError
  retval : Option Json

/-- `json.loads` applied to each `event.data` of an SSE client in order,
yielding each parsed event and stopping at the first malformed one
(models the `for event in client.events()` loop body). -/
def loads_all : List (List Char) → List Json × Option PyError
  | [] => ([], none)
  | e :: rest =>
    match json_loads e with
    | none => ([], some PyError.jsonDecodeError)
    | some j =>
      let r := loads_all rest
      (j :: r.1, r.2)

/-- `WenxinClient.completion_stream` (the blocking streaming call). The
function is a Python generator: the error-code fallback branch ends in
`return response`, which stores the payload in `StopIteration.value`
(`retval`) and yields nothing; the event-stream branch yields
`json.loads(event.data)` for each SSE event. -/
def completion_stream (st : ClientState) (now : Int) (grantNet : GrantOutcome)
    (chatNet : ChatRequest → HttpResponse) (model prompt : String)
    (history : List (String × String)) : GenOutcome × ClientState :=
  match grant_token st now grantNet with
  | (Except.error e, st1, _) => (⟨[], some e, none⟩, st1)
  | (Except.ok tok, st1, _) =>
    match chatNet (completion_request tok model prompt history true) with
    | HttpResponse.unreachable => (⟨[], some PyError.transportError, none⟩, st1)
    | HttpResponse.response status contentType jsonBody _ events =>
      if 400 ≤ status then (⟨[], some PyError.httpStatusError, none⟩, st1)
      else if pyStartsWith contentType.data "text/event-stream".data = false then
        match jsonBody with
        | none => (⟨[], some PyError.jsonDecodeError, none⟩, st1)
        | some response =>
          let error_code := (jget response "error_code").getD (Json.num 0)
          if pyEqZero error_code = false then
            (⟨[], some (PyError.apiError error_code
              ((jget response "error_msg").getD (Json.str "Unknown error"))), none⟩, st1)
          else
            (⟨[], none, some response⟩, st1)
      else
        let r := loads_all events
        (⟨r.1, r.2, none⟩, st1)

/-- The inner `read` coroutine of `acompletion_stream`: accumulate the
successive network-read chunks into `data`; whenever the accumulated
buffer ends with one of `\r\r`, `\n\n`, `\r\n\r\n`, yield the whole
buffer as one frame and reset it; at end of stream yield any leftover
non-empty buffer. -/
def read_loop (buf : List Char) : List (List Char) → List (List Char)
  | [] => if buf.isEmpty then [] else [buf]
  | chunk :: rest =>
    let data := buf ++ chunk
    if pyEndsWith data "\r\r".data || pyEndsWith data "\n\n".data
        || pyEndsWith data "\r\n\r\n".data then
      data :: read_loop [] rest
    else
      read_loop data rest

/-- `read(r.content)` started with an empty buffer. -/
def read_frames (chunks : List (List Char)) : List (List Char) :=
  read_loop [] chunks

/-- The `async for line in read(...)` loop of `acompletion_stream`: skip
any flushed frame not starting with `data:`; otherwise drop the 5-char
prefix, strip surrounding whitespace, and `json.loads` the remainder,
yielding each event and stopping with an error at the first malformed
frame. -/
def decode_frames : List (List Char) → List Json × Option PyError
  | [] => ([], none)
  | line :: rest =>
    if pyStartsWith line "data:".data = false then decode_frames rest
    else
      match json_loads (pyStrip (line.drop 5)) with
      | none => ([], some PyError.jsonDecodeError)
      | some j =>
        let r := decode_frames rest
        (j :: r.1, r.2)

/-- The full event-stream decoding pipeline of `acompletion_stream`:
frame reassembly from raw reads, then per-frame decoding. -/
def sse_decode (chunks : List (List Char)) : List Json × Option PyError :=
  decode_frames (read_frames chunks)

/-- `WenxinClient.acompletion_stream` (the async streaming call), as an
async generator: the values it yields and the exception that terminates
it, plus the resulting client state. In the non-event-stream branch the
code yields the single parsed payload and then still runs the `read`
loop, but `await r.json()` has already consumed the connection's content,
so that loop sees no chunks. -/
def acompletion_stream (st : ClientState) (now : Int) (grantNet : GrantOutcome)
    (chatNet : ChatRequest → HttpResponse) (model prompt : String)
    (history : List (String × String)) : (List Json × Option PyError) × ClientState :=
  match async_grant_token st now grantNet with
  | (Except.error e, st1, _) => (([], some e), st1)
  | (Except.ok tok, st1, _) =>
    match chatNet (completion_request tok model prompt history true) with
    | HttpResponse.unreachable => (([], some PyError.transportError), st1)
    | HttpResponse.response status contentType jsonBody chunks _ =>
      if 400 ≤ status then (([], some PyError.httpStatusError), st1)
      else if pyStartsWith contentType.data "text/event-stream".data = false then
        match jsonBody with
        | none => (([], some PyError.jsonDecodeError), st1)
        | some response =>
          let error_code := (jget response "error_code").getD (Json.num 0)
          if pyEqZero error_code = false then
            (([], some (PyError.apiError error_code
              ((jget response "error_msg").getD (Json.str "Unknown error")))), st1)
          else
            let r := sse_decode []
            ((response :: r.1, r.2), st1)
      else
        (sse_decode chunks, st1)

/-- The way streaming callers assemble the final answer
(`current_completion += data["result"]` in `Wenxin._call` and
`ChatWenxin._generate`): concatenate each event's `result` field in
emission order. -/
def concat_results (events : List Json) : String :=
  events.foldl
    (fun acc j =>
      match jget j "result" with
      | some (Json.str s) => acc ++ s
      | _ => acc)
    ""

/-- A `langchain` chat message as consumed by
`ChatWenxin._convert_messages_to_prompt`: `SystemMessage` (`type`
`"system"`), `HumanMessage` (`"human"`) or `AIMessage` (`"ai"`), with its
text content. -/
inductive ChatMsg where
  | system (content : String)
  | human (content : String)
  | ai (content : String)
deriving DecidableEq

/-- The `message.type` discriminator string. -/
def ChatMsg.type : ChatMsg → String
  | ChatMsg.system _ => "system"
  | ChatMsg.human _ => "human"
  | ChatMsg.ai _ => "ai"

/-- The `message.content` field. -/
def ChatMsg.content : ChatMsg → String
  | ChatMsg.system c => c
  | ChatMsg.human c => c
  | ChatMsg.ai c => c

/-- Models `isinstance(m, HumanMessage)`. -/
def isHumanMessage : ChatMsg → Bool
  | ChatMsg.human _ => true
  | _ => false

/-- Exceptions raised by `_convert_messages_to_prompt`: the two
`ValueError`s ("It must be in the order of user, assistant." and "The
last message must be a human message.") and the `IndexError` from
`messages[-1]` on an empty list. -/
inductive EncodeError where
  | orderError
  | lastTurnError
  | indexError
deriving DecidableEq

/-- One iteration of the `for message in messages[:-1]` loop of
`_convert_messages_to_prompt`, acting on the pending pair's human half
(`pair[0]`, `none` when empty) and the accumulated history. A system
message appends `(content, "OK\n")` to history and then still falls
through into the alternation check (the source has no `continue`). -/
def convert_step (pair0 : Option String) (history : List (String × String))
    (m : ChatMsg) : Except EncodeError (Option String × List (String × String)) :=
  let history1 := if m.type == "system"
    then history ++ [(m.content, "OK\n")] else history
  match pair0 with
  | none =>
    if m.type == "human" then Except.ok (some m.content, history1)
    else Except.error EncodeError.orderError
  | some h =>
    if m.type == "ai" then Except.ok (none, history1 ++ [(h, m.content)])
    else Except.error EncodeError.orderError

/-- The loop of `_convert_messages_to_prompt` over `messages[:-1]`,
stopping at the first raised `ValueError`. -/
def convert_fold (pair0 : Option String) (history : List (String × String)) :
    List ChatMsg → Except EncodeError (Option String × List (String × String))
  | [] => Except.ok (pair0, history)
  | m :: ms =>
    match convert_step pair0 history m with
    | Except.error e => Except.error e
    | Except.ok (p1, h1) => convert_fold p1 h1 ms

/-- `ChatWenxin._convert_messages_to_prompt`: walk all messages but the
last through the alternation loop, then require the last message (whose
access raises `IndexError` on an empty list) to be a `HumanMessage` and
return its content as the prompt together with the history. -/
def convert_messages_to_prompt (messages : List ChatMsg) :
    Except EncodeError (String × List (String × String)) :=
  match convert_fold none [] messages.dropLast with
  | Except.error e => Except.error e
  | Except.ok (_, history) =>
    match messages.getLast? with
    | none => Except.error EncodeError.indexError
    | some last =>
      if isHumanMessage last then Except.ok (last.content, history)
      else Except.error EncodeError.lastTurnError

/-- The SSE frame carrying the `He` delta, as raw bytes. -/
def frameHe : List Char := "data: \x7b\"result\":\"He\"\x7d\n\n".data

/-- The SSE frame carrying the `llo` delta, as raw bytes. -/
def framello : List Char := "data: \x7b\"result\":\"llo\"\x7d\n\n".data

/-- The parsed event of the first frame. -/
def eventHe : Json := Json.obj [("result", Json.str "He")]

/-- The parsed event of the second frame. -/
def eventllo : Json := Json.obj [("result", Json.str "llo")]

/-- A parsed application-error body. -/
def errBody17 : Json := Json.obj [("error_code", Json.num 17), ("error_msg", Json.str "quota")]

/-- A parsed success body. -/
def okBodyHi : Json := Json.obj [("result", Json.str "hi")]

/-- Claim C1: for every client whose cached credential has a non-empty
token and an expiry strictly greater than the current time, `grant_token`
and `async_grant_token` perform zero network calls, return exactly the
cached token string, and leave the whole client state (token and expiry)
unchanged, whatever the network oracle would have answered. -/
theorem grant_token_cached (st : ClientState) (now : Int)
    (net net2 : GrantOutcome) (htok : st.access_token ≠ "")
    (hexp : now < st.access_token_expires) :
    grant_token st now net = (Except.ok st.access_token, st, 0) ∧
    async_grant_token st now net2 = (Except.ok st.access_token, st, 0) := by
  refine ⟨?_, ?_⟩
  · unfold grant_token
    rw [if_pos ⟨htok, hexp⟩]
  · unfold async_grant_token
    rw [if_pos ⟨htok, hexp⟩]

/-- Witness for `grant_token_cached` at a concrete cached state. -/
theorem grant_token_cached_witness :
    grant_token ⟨"tok", 10⟩ 5 GrantOutcome.unreachable =
      (Except.ok "tok", ⟨"tok", 10⟩, 0) ∧
    async_grant_token ⟨"tok", 10⟩ 5 GrantOutcome.unreachable =
      (Except.ok "tok", ⟨"tok", 10⟩, 0) :=
  grant_token_cached ⟨"tok", 10⟩ 5 GrantOutcome.unreachable GrantOutcome.unreachable
    (by decide) (by decide)

/-- Claim C2 (divergence witness): on the conversation
`[System "sys", Human "a", Assistant "b", Human "c"]` the encoder raises
the order `ValueError` instead of returning
`("c", [("sys", "OK\n"), ("a", "b")])`: the system branch appends to
history but then falls through into the alternation check, which raises
already at the very first (system) message. -/
theorem convert_system_turn_raises_order_error :
    convert_messages_to_prompt
        [ChatMsg.system "sys", ChatMsg.human "a", ChatMsg.ai "b", ChatMsg.human "c"] =
      Except.error EncodeError.orderError ∧
    convert_fold none [] [ChatMsg.system "sys"] = Except.error EncodeError.orderError :=
  ⟨rfl, rfl⟩

/-- Claim C3 (divergence witness): on a streaming request answered with
`Content-Type: application/json`, the sync `completion_stream` generator
yields nothing to an iterating caller — the parsed payload sits only in
`StopIteration.value` (`retval`), which `for` loops discard — while the
async `acompletion_stream` yields the payload as the single stream
element; in both, a payload with `error_code != 0` raises the API error
instead. -/
theorem completion_stream_json_fallback :
    completion_stream ⟨"t", 10⟩ 5 GrantOutcome.unreachable
        (fun _ => HttpResponse.response 200 "application/json" (some okBodyHi) [] [])
        "ernie-bot" "hi" [] =
      (⟨[], none, some okBodyHi⟩, ⟨"t", 10⟩) ∧
    acompletion_stream ⟨"t", 10⟩ 5 GrantOutcome.unreachable
        (fun _ => HttpResponse.response 200 "application/json" (some okBodyHi) [] [])
        "ernie-bot" "hi" [] =
      (([okBodyHi], none), ⟨"t", 10⟩) ∧
    completion_stream ⟨"t", 10⟩ 5 GrantOutcome.unreachable
        (fun _ => HttpResponse.response 200 "application/json" (some errBody17) [] [])
        "ernie-bot" "hi" [] =
      (⟨[], some (PyError.apiError (Json.num 17) (Json.str "quota")), none⟩, ⟨"t", 10⟩) ∧
    acompletion_stream ⟨"t", 10⟩ 5 GrantOutcome.unreachable
        (fun _ => HttpResponse.response 200 "application/json" (some errBody17) [] [])
        "ernie-bot" "hi" [] =
      (([], some (PyError.apiError (Json.num 17) (Json.str "quota"))), ⟨"t", 10⟩) :=
  ⟨rfl, rfl, rfl, rfl⟩

/-- Claim C4 (counterexample): the conversation `[Human "a", Human "b"]`
does not fail with the order error — the loop walks only `messages[:-1]`,
so the first human fills the pending pair, the last message is human, and
the encoder returns prompt `"b"` with empty history. -/
theorem convert_two_humans_cex :
    convert_messages_to_prompt [ChatMsg.human "a", ChatMsg.human "b"] =
      Except.ok ("b", []) := rfl

/-- Claim C4 (amended): `[Human "a", Human "b"]` succeeds with prompt
`"b"` and empty history, silently discarding the pending unpaired human
turn; the order error does occur once the repeated human turn lies among
`messages[:-1]`, as in `[Human "a", Human "b", Human "c"]`. -/
theorem convert_two_humans_amended :
    convert_messages_to_prompt [ChatMsg.human "a", ChatMsg.human "b"] =
      Except.ok ("b", []) ∧
    convert_messages_to_prompt [ChatMsg.human "a", ChatMsg.human "b", ChatMsg.human "c"] =
      Except.error EncodeError.orderError :=
  ⟨rfl, rfl⟩

/-- Claim C5 (counterexample): a refresh answered 200 with a body that
has `access_token` but no `expires_in` raises `KeyError` between the two
field assignments, leaving the cache half-updated: the token has changed
to the new value while the expiry kept its prior value. -/
theorem grant_token_half_update_cex :
    (grant_token ⟨"old", 0⟩ 5 (GrantOutcome.response 200 (some ⟨some "new", none⟩))).2.1.access_token ≠ "old" ∧
    (grant_token ⟨"old", 0⟩ 5 (GrantOutcome.response 200 (some ⟨some "new", none⟩))).2.1.access_token_expires = 0 ∧
    (grant_token ⟨"old", 0⟩ 5 (GrantOutcome.response 200 (some ⟨some "new", none⟩))).1 =
      Except.error PyError.keyError ∧
    (async_grant_token ⟨"old", 0⟩ 5 (GrantOutcome.response 200 (some ⟨some "new", none⟩))).2.1 =
      ⟨"new", 0⟩ :=
  ⟨by decide, rfl, rfl, rfl⟩

/-- Claim C5 (amended): when the cached credential does not short-circuit
the refresh, every failure that occurs before the grant body's
`access_token` is read (unreachable endpoint, non-2xx status, unparsable
body, body missing `access_token`) leaves the cache exactly in its prior
state, in both the sync and async variants; but a 2xx body carrying
`access_token` while missing `expires_in` updates the token and leaves
the expiry unchanged — the one half-updating case. -/
theorem grant_token_failure_cache_states (st : ClientState) (now : Int)
    (hmiss : ¬(st.access_token ≠ "" ∧ now < st.access_token_expires)) :
    ((grant_token st now GrantOutcome.unreachable).2.1 = st ∧
      (async_grant_token st now GrantOutcome.unreachable).2.1 = st) ∧
    (∀ status body, 400 ≤ status →
      (grant_token st now (GrantOutcome.response status body)).2.1 = st ∧
      (async_grant_token st now (GrantOutcome.response status body)).2.1 = st) ∧
    (∀ status, ¬ 400 ≤ status →
      (grant_token st now (GrantOutcome.response status none)).2.1 = st ∧
      (async_grant_token st now (GrantOutcome.response status none)).2.1 = st) ∧
    (∀ status ein, ¬ 400 ≤ status →
      (grant_token st now (GrantOutcome.response status (some ⟨none, ein⟩))).2.1 = st ∧
      (async_grant_token st now (GrantOutcome.response status (some ⟨none, ein⟩))).2.1 = st) ∧
    (∀ status tok, ¬ 400 ≤ status →
      (grant_token st now (GrantOutcome.response status (some ⟨some tok, none⟩))).2.1 =
        { st with access_token := tok } ∧
      (async_grant_token st now (GrantOutcome.response status (some ⟨some tok, none⟩))).2.1 =
        { st with access_token := tok } ∧
      (grant_token st now (GrantOutcome.response status (some ⟨some tok, none⟩))).1 =
        Except.error PyError.keyError) := by
  refine ⟨⟨?_, ?_⟩, fun status body h => ⟨?_, ?_⟩, fun status h => ⟨?_, ?_⟩,
    fun status ein h => ⟨?_, ?_⟩, fun status tok h => ⟨?_, ?_, ?_⟩⟩ <;>
    simp only [grant_token, async_grant_token, if_neg hmiss] <;>
    simp only [if_pos ‹_›, if_neg ‹_›]

/-- Witness for `grant_token_failure_cache_states` at a fresh client
state and concrete outcomes. -/
theorem grant_token_failure_cache_states_witness :
    ((grant_token ⟨"", 0⟩ 7 GrantOutcome.unreachable).2.1 = ⟨"", 0⟩ ∧
      (async_grant_token ⟨"", 0⟩ 7 GrantOutcome.unreachable).2.1 = ⟨"", 0⟩) ∧
    ((grant_token ⟨"", 0⟩ 7 (GrantOutcome.response 500 none)).2.1 = ⟨"", 0⟩ ∧
      (async_grant_token ⟨"", 0⟩ 7 (GrantOutcome.response 500 none)).2.1 = ⟨"", 0⟩) ∧
    ((grant_token ⟨"", 0⟩ 7 (GrantOutcome.response 200 (some ⟨none, some 30⟩))).2.1 = ⟨"", 0⟩ ∧
      (async_grant_token ⟨"", 0⟩ 7 (GrantOutcome.response 200 (some ⟨none, some 30⟩))).2.1 = ⟨"", 0⟩) ∧
    (grant_token ⟨"", 0⟩ 7 (GrantOutcome.response 200 (some ⟨some "new", none⟩))).2.1 =
      ⟨"new", 0⟩ := by
  have h := grant_token_failure_cache_states ⟨"", 0⟩ 7 (by decide)
  exact ⟨h.1, h.2.1 500 none (by decide), h.2.2.2.1 200 (some 30) (by decide),
    (h.2.2.2.2 200 "new" (by decide)).1⟩

/-- Claim C6: whenever the non-streaming `completion` call's HTTP
exchange succeeds (2xx, parsable body), a body whose `error_code` is
nonzero makes the call raise the API error carrying that code and the
body's `error_msg` (defaulting to `"Unknown error"`), never returning the
payload; and a body whose `error_code` is `0` or absent is returned
unchanged. -/
theorem completion_error_code_propagation
    (st st1 : ClientState) (now : Int) (grantNet : GrantOutcome)
    (chatNet : ChatRequest → HttpResponse) (tok model prompt : String)
    (history : List (String × String)) (n : Nat) (status : Nat) (ct : String)
    (body : Json) (chunks events : List (List Char))
    (hgrant : grant_token st now grantNet = (Except.ok tok, st1, n))
    (hresp : chatNet (completion_request tok model prompt history false) =
      HttpResponse.response status ct (some body) chunks events)
    (hstatus : ¬ 400 ≤ status) :
    (pyEqZero ((jget body "error_code").getD (Json.num 0)) = false →
      completion st now grantNet chatNet model prompt history =
        (Except.error (PyError.apiError ((jget body "error_code").getD (Json.num 0))
          ((jget body "error_msg").getD (Json.str "Unknown error"))), st1)) ∧
    (pyEqZero ((jget body "error_code").getD (Json.num 0)) = true →
      completion st now grantNet chatNet model prompt history = (Except.ok body, st1)) := by
  refine ⟨fun hc => ?_, fun hc => ?_⟩ <;>
    simp only [completion, hgrant, hresp, if_neg hstatus, hc] <;>
    simp

/-- Witness for `completion_error_code_propagation` at the body
`\x7b"error_code": 17, "error_msg": "quota"\x7d`. -/
theorem completion_error_code_propagation_witness :
    completion ⟨"t", 10⟩ 5 GrantOutcome.unreachable
      (fun _ => HttpResponse.response 200 "application/json" (some errBody17) [] [])
      "ernie-bot" "hi" [] =
    (Except.error (PyError.apiError (Json.num 17) (Json.str "quota")), ⟨"t", 10⟩) :=
  (completion_error_code_propagation ⟨"t", 10⟩ ⟨"t", 10⟩ 5 GrantOutcome.unreachable
    (fun _ => HttpResponse.response 200 "application/json" (some errBody17) [] [])
    "t" "ernie-bot" "hi" [] 0 200 "application/json" errBody17 [] []
    rfl rfl (by decide)).1 rfl

/-- Claim C7 (counterexample): two chunkings of the very same bytes — one
read per frame versus one single read — make the decoder produce
different outcomes, so decoding is not a function of the concatenated
bytes alone. -/
theorem sse_decode_chunk_dependence_cex :
    [frameHe, framello].flatten = [frameHe ++ framello].flatten ∧
    sse_decode [frameHe, framello] ≠ sse_decode [frameHe ++ framello] := by
  refine ⟨by simp, ?_⟩
  have h1 : sse_decode [frameHe, framello] = ([eventHe, eventllo], none) := rfl
  have h2 : sse_decode [frameHe ++ framello] = ([], some PyError.jsonDecodeError) := rfl
  rw [h1, h2]
  simp

/-- Claim C7 (amended): the decoder depends on read boundaries: delivered
one read per frame, the two-frame body decodes to the two events, but
delivered as one single read, the terminator check fires only once, the
whole buffer is treated as a single `data:` line, and its stripped
remainder fails JSON parsing, so the same bytes produce a decode error
and no events. -/
theorem sse_decode_boundary_dependent :
    sse_decode [frameHe, framello] = ([eventHe, eventllo], none) ∧
    sse_decode [frameHe ++ framello] = ([], some PyError.jsonDecodeError) :=
  ⟨rfl, rfl⟩

/-- Claim C8: the two-frame body, delivered at its frame boundaries,
decodes to exactly the events `\x7b"result":"He"\x7d` then
`\x7b"result":"llo"\x7d` in order — the `data:` prefix and surrounding
whitespace stripped before JSON parsing — and concatenating the `result`
fields in emission order yields `"Hello"`. -/
theorem sse_decode_round_trip :
    frameHe ++ framello =
      ("data: \x7b\"result\":\"He\"\x7d\n\ndata: \x7b\"result\":\"llo\"\x7d\n\n").data ∧
    sse_decode [frameHe, framello] = ([eventHe, eventllo], none) ∧
    concat_results [eventHe, eventllo] = "Hello" :=
  ⟨rfl, rfl, rfl⟩

/-- Claim C9 (counterexample): a non-empty conversation whose final turn
is not human need not fail with the last-turn error — if the walk over
`messages[:-1]` already violates alternation, the order error wins, as on
`[Human "a", Human "b", Assistant "c"]`. -/
theorem convert_last_turn_cex :
    convert_messages_to_prompt [ChatMsg.human "a", ChatMsg.human "b", ChatMsg.ai "c"] =
      Except.error EncodeError.orderError ∧
    convert_messages_to_prompt [ChatMsg.human "a", ChatMsg.human "b", ChatMsg.ai "c"] ≠
      Except.error EncodeError.lastTurnError := by
  refine ⟨rfl, ?_⟩
  intro hc
  rw [show convert_messages_to_prompt [ChatMsg.human "a", ChatMsg.human "b", ChatMsg.ai "c"] =
    Except.error EncodeError.orderError from rfl] at hc
  exact EncodeError.noConfusion (Except.error.inj hc)

/-- Claim C9 (amended): whenever the walk over all but the last turn
completes without raising, a non-human final turn makes the encoder fail
with the last-turn error; and whenever the encoder succeeds, the returned
prompt is the final turn's text. -/
theorem convert_last_turn (msgs : List ChatMsg) (last : ChatMsg)
    (hlast : msgs.getLast? = some last) :
    ((∃ st, convert_fold none [] msgs.dropLast = Except.ok st) →
      isHumanMessage last = false →
      convert_messages_to_prompt msgs = Except.error EncodeError.lastTurnError) ∧
    (∀ p h, convert_messages_to_prompt msgs = Except.ok (p, h) → p = last.content) := by
  constructor
  · rintro ⟨⟨p0, hist⟩, hok⟩ hnh
    simp only [convert_messages_to_prompt, hok, hlast, hnh]
    simp
  · intro p h hok2
    rcases hfold : convert_fold none [] msgs.dropLast with e | st0
    · simp only [convert_messages_to_prompt, hfold] at hok2
      exact Except.noConfusion hok2
    · obtain ⟨p0, hist⟩ := st0
      simp only [convert_messages_to_prompt, hfold, hlast] at hok2
      split at hok2
      · exact (congrArg Prod.fst (Except.ok.inj hok2)).symm
      · exact Except.noConfusion hok2

/-- Witness for `convert_last_turn` at `[Human "a", Assistant "b"]`. -/
theorem convert_last_turn_witness :
    convert_messages_to_prompt [ChatMsg.human "a", ChatMsg.ai "b"] =
      Except.error EncodeError.lastTurnError :=
  (convert_last_turn [ChatMsg.human "a", ChatMsg.ai "b"] (ChatMsg.ai "b") rfl).1
    ⟨(some "a", []), rfl⟩ rfl

/-- Claim C10: on the empty conversation the encoder neither returns a
result nor raises either `ValueError`: the loop body never runs and
`messages[-1]` raises `IndexError`. -/
theorem convert_empty_conversation :
    convert_messages_to_prompt ([] : List ChatMsg) = Except.error EncodeError.indexError ∧
    EncodeError.indexError ≠ EncodeError.orderError ∧
    EncodeError.indexError ≠ EncodeError.lastTurnError :=
  ⟨rfl, by decide, by decide⟩

end Wenxin
